import Mathlib

/-!
Shallow embedding of the Sim Python SDK client
(`packages/python-sdk/simstudio/__init__.py`) and proofs about it.

Modelling conventions:
* Python values reachable in JSON bodies and workflow inputs are `PyVal`
  (`None`, `bool`, `int`, `str`, `list`, `dict`, file-like objects).
* A Python file-like object is `FileObj`: its byte content, current read
  cursor, whether it has `tell`/`seek`, and optional `name`/`content_type`
  attributes.  `read()` returns the bytes from the cursor to the end and
  moves the cursor to the end.
* Mutation is made explicit: `convertFiles v` returns the encoded value
  together with the post-call state of the original value (file cursors
  may have moved).
* HTTP exchanges are `Response` values (status, reason phrase, the four
  rate-limit header slots, and the parsed JSON body, `none` when the body
  is not valid JSON so that `.json()` raises `ValueError`).
* Python exceptions are `PyError`: either the library's typed
  `SimStudioError` or a bare interpreter error (`ValueError`, `KeyError`,
  `AttributeError`, `TypeError`).
* Durations and random draws in the retry controller are rationals; the
  Python floats enter only through multiplication/division/min, so the
  algebraic relations proved here are exact statements about the code's
  arithmetic.
-/

namespace SimSDK

/-- Python file-like object: data, read cursor, capability flags and the
optional `name` / `content_type` attributes read by the encoder. -/
structure FileObj where
  data : List Nat
  pos : Nat
  hasTell : Bool
  hasSeek : Bool
  name : Option String
  contentType : Option String
deriving DecidableEq

/-- Python values: JSON scalars, lists, dicts (assoc lists in insertion
order, keys unique as in Python) and file-like objects. -/
inductive PyVal where
  | null
  | bool (b : Bool)
  | num (n : Int)
  | str (s : String)
  | list (items : List PyVal)
  | dict (entries : List (String × PyVal))
  | file (f : FileObj)

/-- The base64 alphabet, as in `base64.b64encode`. -/
def b64Alphabet : List Char :=
  ("ABCDEFGHIJKLMNOPQRSTUVWXYZabcdefghijklmnopqrstuvwxyz0123456789+/").toList

/-- Character for a 6-bit group. -/
def b64c (n : Nat) : Char := b64Alphabet.getD n '='

/-- Base64-encode a byte list, three bytes at a time with `=` padding
(models `base64.b64encode`). -/
def b64chunks : List Nat → List Char
  | a :: b :: c :: rest =>
    b64c (a / 4) :: b64c (a % 4 * 16 + b / 16) ::
      b64c (b % 16 * 4 + c / 64) :: b64c (c % 64) :: b64chunks rest
  | [a, b] => [b64c (a / 4), b64c (a % 4 * 16 + b / 16), b64c (b % 16 * 4), '=']
  | [a] => [b64c (a / 4), b64c (a % 4 * 16), '=', '=']
  | [] => []

def b64encode (bs : List Nat) : String := String.mk (b64chunks bs)

/-- `os.path.basename`: the part after the last `/` (empty when the
path ends in `/`). -/
def basenameAux : List Char → List Char → List Char
  | [], acc => acc.reverse
  | c :: cs, acc => if c == '/' then basenameAux cs [] else basenameAux cs (c :: acc)

def basename (s : String) : String := String.mk (basenameAux s.toList [])

/-- The dict the encoder produces for one file-like leaf: base64 data URI,
display name (directory prefix stripped, default `file`) and media type
(default `application/octet-stream`). -/
def fileRef (f : FileObj) : PyVal :=
  let ct := f.contentType.getD "application/octet-stream"
  .dict [("type", .str "file"),
         ("data", .str ("data:" ++ ct ++ ";base64," ++ b64encode (f.data.drop f.pos))),
         ("name", .str (basename (f.name.getD "file"))),
         ("mime", .str ct)]

/-- Post-`read()` state of a file-like leaf: the cursor is restored when
the object supports both `tell` and `seek` (lines 123-130), otherwise it
stays at the end of the data. -/
def advanceCursor (f : FileObj) : FileObj :=
  if f.hasTell && f.hasSeek then f else { f with pos := f.data.length }

mutual
/-- `SimStudioClient._convert_files_to_base64`.  First component: the
encoded value.  Second component: the state of the *original* value after
the call (file cursors may have advanced; everything else is rebuilt
fresh, so the original containers are untouched). -/
def convertFiles : PyVal → PyVal × PyVal
  | .null => (.null, .null)
  | .bool b => (.bool b, .bool b)
  | .num n => (.num n, .num n)
  | .str s => (.str s, .str s)
  | .list xs =>
    let p := convertFilesList xs
    (.list p.1, .list p.2)
  | .dict kvs =>
    let p := convertFilesDict kvs
    (.dict p.1, .dict p.2)
  | .file f => (fileRef f, .file (advanceCursor f))
def convertFilesList : List PyVal → List PyVal × List PyVal
  | [] => ([], [])
  | x :: xs =>
    let p := convertFiles x
    let q := convertFilesList xs
    (p.1 :: q.1, p.2 :: q.2)
def convertFilesDict : List (String × PyVal) → List (String × PyVal) × List (String × PyVal)
  | [] => ([], [])
  | (k, v) :: kvs =>
    let p := convertFiles v
    let q := convertFilesDict kvs
    ((k, p.1) :: q.1, (k, p.2) :: q.2)
end

mutual
/-- Every file-like leaf of the value supports both `tell` and `seek`. -/
def allSeekable : PyVal → Bool
  | .null | .bool _ | .num _ | .str _ => true
  | .list xs => allSeekableList xs
  | .dict kvs => allSeekableDict kvs
  | .file f => f.hasTell && f.hasSeek
def allSeekableList : List PyVal → Bool
  | [] => true
  | x :: xs => allSeekable x && allSeekableList xs
def allSeekableDict : List (String × PyVal) → Bool
  | [] => true
  | (_, v) :: kvs => allSeekable v && allSeekableDict kvs
end

mutual
/-- Apply a transformation to every file-like leaf, leaving everything
else untouched (used to characterise the encoder's side effect). -/
def mapFiles (g : FileObj → FileObj) : PyVal → PyVal
  | .null => .null
  | .bool b => .bool b
  | .num n => .num n
  | .str s => .str s
  | .list xs => .list (mapFilesList g xs)
  | .dict kvs => .dict (mapFilesDict g kvs)
  | .file f => .file (g f)
def mapFilesList (g : FileObj → FileObj) : List PyVal → List PyVal
  | [] => []
  | x :: xs => mapFiles g x :: mapFilesList g xs
def mapFilesDict (g : FileObj → FileObj) : List (String × PyVal) → List (String × PyVal)
  | [] => []
  | (k, v) :: kvs => (k, mapFiles g v) :: mapFilesDict g kvs
end

/-- `RateLimitInfo` dataclass: snapshot stored by the client. -/
structure RateLimitInfo where
  limit : Int
  remaining : Int
  reset : Int
  retryAfter : Option Int
deriving DecidableEq

/-- `SimStudioError`: message (any Python value, since error bodies are
used verbatim), optional machine code, optional HTTP status. -/
structure SimStudioError where
  message : PyVal
  code : Option PyVal
  status : Option Nat

/-- `WorkflowExecutionResult` dataclass; `success` is taken verbatim from
the body, the other fields come from `dict.get` and are `none` when the
key is absent or its value is JSON null. -/
structure WorkflowExecutionResult where
  success : PyVal
  output : Option PyVal
  error : Option PyVal
  logs : Option PyVal
  metadata : Option PyVal
  traceSpans : Option PyVal
  totalDuration : Option PyVal

/-- `AsyncExecutionResult` dataclass; fields are the verbatim
`dict.get(..., default)` values. -/
structure AsyncExecutionResult where
  success : PyVal
  taskId : PyVal
  status : PyVal
  createdAt : PyVal
  links : PyVal

/-- What one `execute_workflow` call can return. -/
inductive ExecResult where
  | sync (r : WorkflowExecutionResult)
  | async (r : AsyncExecutionResult)

/-- A raised Python exception: the library's typed error, or a bare
interpreter error escaping the dispatcher. -/
inductive PyError where
  | simError (e : SimStudioError)
  | valueError
  | keyError (k : String)
  | attributeError
  | typeError

/-- The four response header slots the client reads
(`x-ratelimit-limit`, `x-ratelimit-remaining`, `x-ratelimit-reset`,
`retry-after`); `none` when the header is absent. -/
structure Headers where
  limit : Option String
  remaining : Option String
  reset : Option String
  retryAfter : Option String

/-- An HTTP response as the client sees it; `body none` means the payload
is not valid JSON, so `response.json()` raises `ValueError`. -/
structure Response where
  status : Nat
  reason : String
  headers : Headers
  body : Option PyVal

/-- Python truthiness of an optional header value: `None` and the empty
string are falsy. -/
def truthyStr : Option String → Bool
  | some s => !(s == "")
  | none => false

/-- ASCII space-like characters stripped by Python `int()`. -/
def isSpaceChar (c : Char) : Bool := c == ' ' || c == '\t' || c == '\n' || c == '\r'

def stripSpaces (cs : List Char) : List Char :=
  ((cs.dropWhile isSpaceChar).reverse.dropWhile isSpaceChar).reverse

/-- Accumulate decimal digits; fails on any non-digit. -/
def parseDigitsAux : List Char → Nat → Option Nat
  | [], acc => some acc
  | c :: cs, acc =>
    if c.isDigit then parseDigitsAux cs (acc * 10 + (c.toNat - 48)) else none

def parseDigits : List Char → Option Nat
  | [] => none
  | cs => parseDigitsAux cs 0

/-- Python `int(s)` on an ASCII decimal string (optional sign,
surrounding whitespace allowed — the only forms HTTP rate-limit headers
carry); raises `ValueError` otherwise. -/
def pyInt (s : String) : Except PyError Int :=
  match stripSpaces s.toList with
  | '-' :: rest =>
    match parseDigits rest with
    | some n => .ok (-(n : Int))
    | none => .error .valueError
  | '+' :: rest =>
    match parseDigits rest with
    | some n => .ok (n : Int)
    | none => .error .valueError
  | rest =>
    match parseDigits rest with
    | some n => .ok (n : Int)
    | none => .error .valueError

/-- `int(h) if h else 0` for one of the limit/remaining/reset slots. -/
def convSlot (s : Option String) : Except PyError Int :=
  match s with
  | some v => if v == "" then .ok 0 else pyInt v
  | none => .ok 0

/-- `int(retry_after) * 1000 if retry_after else None`. -/
def convRetryAfter (s : Option String) : Except PyError (Option Int) :=
  match s with
  | some v =>
    if v == "" then .ok none
    else
      match pyInt v with
      | .ok n => .ok (some (n * 1000))
      | .error e => .error e
  | none => .ok none

/-- `SimStudioClient._update_rate_limit_info` (lines 493-511): replace the
snapshot wholesale when at least one of limit/remaining/reset is truthy,
otherwise leave it untouched. -/
def updateRateLimitInfo (prev : Option RateLimitInfo) (h : Headers) :
    Except PyError (Option RateLimitInfo) :=
  if truthyStr h.limit || truthyStr h.remaining || truthyStr h.reset then
    match convSlot h.limit with
    | .error e => .error e
    | .ok l =>
      match convSlot h.remaining with
      | .error e => .error e
      | .ok r =>
        match convSlot h.reset with
        | .error e => .error e
        | .ok rs =>
          match convRetryAfter h.retryAfter with
          | .error e => .error e
          | .ok ra => .ok (some ⟨l, r, rs, ra⟩)
  else .ok prev

/-- First-match association lookup (Python dict access; keys are unique
in Python, so first-match agrees with dict semantics). -/
def pyLookup (d : List (String × PyVal)) (k : String) : Option PyVal :=
  match d with
  | [] => none
  | (k1, v) :: rest => if k1 == k then some v else pyLookup rest k

/-- `d.get(k, default)`: the stored value (even when it is JSON null),
else the default. -/
def pyGetD (d : List (String × PyVal)) (k : String) (dflt : PyVal) : PyVal :=
  (pyLookup d k).getD dflt

/-- `d.get(k)`: `None` when the key is absent or its value is null
(Python cannot tell those apart). -/
def pyGetOpt (d : List (String × PyVal)) (k : String) : Option PyVal :=
  match pyLookup d k with
  | some .null => none
  | some v => some v
  | none => none

def pyHasKey (d : List (String × PyVal)) (k : String) : Bool :=
  (pyLookup d k).isSome

/-- `d[k] = v`: replace the binding if the key exists, else append. -/
def dictSet (d : List (String × PyVal)) (k : String) (v : PyVal) :
    List (String × PyVal) :=
  if pyHasKey d k then d.map (fun e => if e.1 == k then (k, v) else e)
  else d ++ [(k, v)]

/-- Substring test (Python `needle in haystack` on strings). -/
def infixOf (needle : List Char) : List Char → Bool
  | [] => needle.isEmpty
  | c :: rest => needle.isPrefixOf (c :: rest) || infixOf needle rest

def strContains (hay needle : String) : Bool := infixOf needle.toList hay.toList

/-- Python membership test for a string element.  `'k' in dict` is a key
test, `'k' in str` a substring test, `'k' in list` element equality;
anything else raises `TypeError`. -/
def pyInStrList (k : String) : List PyVal → Bool
  | [] => false
  | .str s :: rest => s == k || pyInStrList k rest
  | _ :: rest => pyInStrList k rest

def pyIn (k : String) : PyVal → Except PyError Bool
  | .dict d => .ok (pyHasKey d k)
  | .str s => .ok (strContains s k)
  | .list xs => .ok (pyInStrList k xs)
  | _ => .error .typeError

/-- The retry-after figure interpolated into the 429 message: the
snapshot's hint, Python's `None` rendering when the snapshot has no hint,
or the literal fallback `1000` when there is no snapshot at all. -/
def showRetryAfter : Option RateLimitInfo → String
  | some info =>
    match info.retryAfter with
    | some n => toString n
    | none => "None"
  | none => "1000"

/-- Synthesized error message for a non-JSON or message-less error body. -/
def httpMsg (status : Nat) (reason : String) : String :=
  "HTTP " ++ toString status ++ ": " ++ reason

/-- Response classification in `execute_workflow` (lines 214-257), given
the already-updated rate-limit snapshot.  `requests`' `ok` is
`status < 400`. -/
def classifyResponse (rli : Option RateLimitInfo) (resp : Response) :
    Except PyError ExecResult :=
  if resp.status == 429 then
    .error (.simError ⟨.str ("Rate limit exceeded. Retry after " ++ showRetryAfter rli ++ "ms"),
                       some (.str "RATE_LIMIT_EXCEEDED"), some 429⟩)
  else if 400 ≤ resp.status then
    match resp.body with
    | none =>
      .error (.simError ⟨.str (httpMsg resp.status resp.reason), none, some resp.status⟩)
    | some (.dict d) =>
      .error (.simError ⟨pyGetD d "error" (.str (httpMsg resp.status resp.reason)),
                         pyGetOpt d "code", some resp.status⟩)
    | some _ => .error .attributeError
  else
    match resp.body with
    | none => .error .valueError
    | some rd =>
      match pyIn "taskId" rd with
      | .error e => .error e
      | .ok isTask =>
        if resp.status == 202 && isTask then
          match rd with
          | .dict d =>
            match pyLookup d "taskId" with
            | some tid =>
              .ok (.async ⟨pyGetD d "success" (.bool true), tid,
                           pyGetD d "status" (.str "queued"),
                           pyGetD d "createdAt" (.str ""),
                           pyGetD d "links" (.dict [])⟩)
            | none => .error (.keyError "taskId")
          | _ => .error .attributeError
        else
          match rd with
          | .dict d =>
            match pyLookup d "success" with
            | some sc =>
              .ok (.sync ⟨sc, pyGetOpt d "output", pyGetOpt d "error",
                          pyGetOpt d "logs", pyGetOpt d "metadata",
                          pyGetOpt d "traceSpans", pyGetOpt d "totalDuration"⟩)
            | none => .error (.keyError "success")
          | _ => .error .typeError

/-- One network exchange as seen by the dispatcher: a response, a local
timeout (`requests.Timeout`), or another transport failure
(`requests.RequestException`). -/
inductive HttpOutcome where
  | response (r : Response)
  | timeout
  | reqError (msg : String)

/-- `execute_workflow`'s observable effects: its return value or raised
exception, the rate-limit snapshot afterwards, and the state of the
caller's `input_data` afterwards. -/
structure ExecOutput where
  result : Except PyError ExecResult
  rli : Option RateLimitInfo
  inputAfter : Option (List (String × PyVal))

/-- Body construction (lines 196-205): shallow-copy the input, encode
files, then overlay `stream` / `selectedOutputs` only when supplied.
Second component: the caller's `input_data` after the call (the copy
shares the nested values, so file-cursor movement is visible through the
original). -/
def buildBody (inputData : Option (List (String × PyVal))) (stream : Option Bool)
    (selectedOutputs : Option (List PyVal)) :
    List (String × PyVal) × Option (List (String × PyVal)) :=
  let base := inputData.getD []
  let p := convertFilesDict base
  let b1 := match stream with
    | some b => dictSet p.1 "stream" (.bool b)
    | none => p.1
  let b2 := match selectedOutputs with
    | some l => dictSet b1 "selectedOutputs" (.list l)
    | none => b1
  (b2, inputData.map (fun kvs => (convertFilesDict kvs).2))

/-- `SimStudioClient.execute_workflow` (lines 159-262).  `timeoutStr` is
the rendering of the caller's timeout used in the `TIMEOUT` message. -/
def executeWorkflow (rli0 : Option RateLimitInfo)
    (inputData : Option (List (String × PyVal))) (stream : Option Bool)
    (selectedOutputs : Option (List PyVal)) (timeoutStr : String)
    (outcome : HttpOutcome) : ExecOutput :=
  let bp := buildBody inputData stream selectedOutputs
  match outcome with
  | .timeout =>
    ⟨.error (.simError ⟨.str ("Workflow execution timed out after " ++ timeoutStr ++ " seconds"),
                        some (.str "TIMEOUT"), none⟩), rli0, bp.2⟩
  | .reqError m =>
    ⟨.error (.simError ⟨.str ("Failed to execute workflow: " ++ m),
                        some (.str "EXECUTION_ERROR"), none⟩), rli0, bp.2⟩
  | .response resp =>
    match updateRateLimitInfo rli0 resp.headers with
    | .error e => ⟨.error e, rli0, bp.2⟩
    | .ok rli1 => ⟨classifyResponse rli1 resp, rli1, bp.2⟩

/-- Python `e.code != 'RATE_LIMIT_EXCEEDED'` negated: true exactly when
the code attribute equals that string. -/
def isRLECode : Option PyVal → Bool
  | some (.str s) => s == "RATE_LIMIT_EXCEEDED"
  | _ => false

/-- One dispatcher attempt inside `execute_with_retry`: the result of the
`execute_workflow` call and the rate-limit snapshot right after it (which
the wait computation reads).  For a fixed sequence of HTTP responses both
are determined by the attempt index. -/
structure AttemptOutcome where
  result : Except PyError ExecResult
  rli : Option RateLimitInfo

/-- Observable behaviour of one `execute_with_retry` call: how many times
the dispatcher was invoked, the sleeps performed in order, and the final
outcome. -/
structure RetryTrace where
  attempts : Nat
  sleeps : List ℚ
  result : Except PyError ExecResult

/-- Wait-time base (lines 467-472): the tracker's retry-after hint in
seconds when the snapshot exists and the hint is truthy (present and
non-zero), else `min(delay, max_delay)`. -/
def retryBase (rli : Option RateLimitInfo) (delay maxDelay : ℚ) : ℚ :=
  match rli with
  | some info =>
    match info.retryAfter with
    | some ra => if ra == 0 then min delay maxDelay else (ra : ℚ) / 1000
    | none => min delay maxDelay
  | none => min delay maxDelay

/-- The loop of `execute_with_retry` (lines 444-482).  `fuel` is the
number of loop iterations left (`max_retries + 1 - attempt`); `rand i` is
the `random.random()` draw of iteration `i`. -/
def retryGo (att : Nat → AttemptOutcome) (rand : Nat → ℚ) (maxDelay backoff : ℚ) :
    Nat → Nat → ℚ → RetryTrace
  | 0, _, _ =>
    ⟨0, [], .error (.simError ⟨.str "Max retries exceeded",
                               some (.str "MAX_RETRIES_EXCEEDED"), none⟩)⟩
  | fuel + 1, attempt, delay =>
    match (att attempt).result with
    | .ok r => ⟨1, [], .ok r⟩
    | .error (.simError e) =>
      if !isRLECode e.code then ⟨1, [], .error (.simError e)⟩
      else if fuel == 0 then ⟨1, [], .error (.simError e)⟩
      else
        let w := retryBase (att attempt).rli delay maxDelay * (3/4 + rand attempt * (1/2))
        let rest := retryGo att rand maxDelay backoff fuel (attempt + 1) (delay * backoff)
        ⟨rest.attempts + 1, w :: rest.sleeps, rest.result⟩
    | .error other => ⟨1, [], .error other⟩

/-- `SimStudioClient.execute_with_retry`. -/
def executeWithRetry (att : Nat → AttemptOutcome) (rand : Nat → ℚ)
    (maxRetries : Nat) (initialDelay maxDelay backoff : ℚ) : RetryTrace :=
  retryGo att rand maxDelay backoff (maxRetries + 1) 0 initialDelay

/-- File cursor normalisation: forget the read cursor (used to state that
the encoder changes nothing else in the caller's tree). -/
def eraseCursor (f : FileObj) : FileObj := { f with pos := 0 }

/-! Concrete inputs used by witnesses and counterexamples. -/

/-- A rate-limit error as the dispatcher raises it. -/
def wErrRLE : SimStudioError :=
  ⟨.str "Rate limit exceeded. Retry after 1000ms", some (.str "RATE_LIMIT_EXCEEDED"), some 429⟩

/-- A non-retryable error. -/
def wErrOther : SimStudioError :=
  ⟨.str "workflow not found", some (.str "NOT_FOUND"), some 404⟩

/-- A successful synchronous result. -/
def wSync : WorkflowExecutionResult := ⟨.bool true, none, none, none, none, none, none⟩

/-- Dispatcher behaviour: every attempt rate-limited, no snapshot. -/
def wAttRLE : Nat → AttemptOutcome := fun _ => ⟨.error (.simError wErrRLE), none⟩

/-- Dispatcher behaviour: first attempt rate-limited, second fails with a
non-retryable error. -/
def wAttMixed : Nat → AttemptOutcome := fun i =>
  if i == 0 then ⟨.error (.simError wErrRLE), none⟩ else ⟨.error (.simError wErrOther), none⟩

/-- Dispatcher behaviour: first attempt rate-limited with a stored
retry-after hint of 0 ms, second attempt succeeds. -/
def wAttHintZero : Nat → AttemptOutcome := fun i =>
  if i == 0 then ⟨.error (.simError wErrRLE), some ⟨10, 0, 0, some 0⟩⟩ else ⟨.ok (.sync wSync), none⟩

/-- Deterministic `random.random()` draws: always 0. -/
def wRand0 : Nat → ℚ := fun _ => 0

/-- A seekable in-memory file: bytes of `hi`, cursor at 0. -/
def wFile : FileObj := ⟨[104, 105], 0, true, true, some "/tmp/hi.txt", some "text/plain"⟩

/-- A non-seekable stream with the same content. -/
def wStream : FileObj := ⟨[104, 105], 0, false, false, none, none⟩

/-- A small input tree holding the seekable file. -/
def wTree : PyVal := .dict [("doc", .file wFile), ("tag", .str "a")]

/-- Input-data mapping holding the seekable file. -/
def wInput : List (String × PyVal) := [("doc", .file wFile), ("n", .num 3)]

/-- 429 response carrying a limit header but no retry-after header. -/
def wResp429 : Response := ⟨429, "Too Many Requests", ⟨some "10", none, none, none⟩, none⟩

/-- 429 response carrying only a `retry-after: 2` header. -/
def wResp429Hint : Response := ⟨429, "Too Many Requests", ⟨none, none, none, some "2"⟩, none⟩

/-- 200 response whose JSON body is `{}` (no `success` field). -/
def wResp200Empty : Response := ⟨200, "OK", ⟨none, none, none, none⟩, some (.dict [])⟩

/-- 202 response whose JSON body is `{"taskId": "t1"}`. -/
def wResp202 : Response := ⟨202, "Accepted", ⟨none, none, none, none⟩, some (.dict [("taskId", .str "t1")])⟩

/-- Prior snapshot used by the tracker counterexample. -/
def wPrev : Option RateLimitInfo := some ⟨7, 3, 99, some 5000⟩

/-- Headers whose limit slot is present but empty. -/
def wHdrsEmptyLimit : Headers := ⟨some "", none, none, none⟩

/-- Headers with no rate-limit slots at all. -/
def wHdrsNone : Headers := ⟨none, none, none, none⟩

/-- Headers carrying `retry-after: 2` and nothing else. -/
def wHdrsHint : Headers := ⟨none, none, none, some "2"⟩

/-- Headers carrying limit `10`, reset `7` and `retry-after: 2`. -/
def wHdrsMix : Headers := ⟨some "10", none, some "7", some "2"⟩

/-- JSON body `{"taskId": "t1"}`. -/
def wTaskDict : List (String × PyVal) := [("taskId", .str "t1")]

/-! Helper lemmas about the payload encoder. -/

theorem convertFilesList_fst : ∀ xs : List PyVal,
    (convertFilesList xs).1 = xs.map (fun x => (convertFiles x).1)
  | [] => rfl
  | x :: xs => by simp [convertFilesList, convertFilesList_fst xs]

theorem convertFilesDict_fst : ∀ kvs : List (String × PyVal),
    (convertFilesDict kvs).1 = kvs.map (fun e => (e.1, (convertFiles e.2).1))
  | [] => rfl
  | (k, v) :: kvs => by simp [convertFilesDict, convertFilesDict_fst kvs]

mutual
theorem convertFiles_snd_eq : ∀ v : PyVal, (convertFiles v).2 = mapFiles advanceCursor v
  | .null => rfl
  | .bool _ => rfl
  | .num _ => rfl
  | .str _ => rfl
  | .list xs => by simp [convertFiles, mapFiles, convertFilesList_snd_eq xs]
  | .dict kvs => by simp [convertFiles, mapFiles, convertFilesDict_snd_eq kvs]
  | .file f => rfl
theorem convertFilesList_snd_eq : ∀ xs : List PyVal,
    (convertFilesList xs).2 = mapFilesList advanceCursor xs
  | [] => rfl
  | x :: xs => by
    simp [convertFilesList, mapFilesList, convertFiles_snd_eq x, convertFilesList_snd_eq xs]
theorem convertFilesDict_snd_eq : ∀ kvs : List (String × PyVal),
    (convertFilesDict kvs).2 = mapFilesDict advanceCursor kvs
  | [] => rfl
  | (k, v) :: kvs => by
    simp [convertFilesDict, mapFilesDict, convertFiles_snd_eq v, convertFilesDict_snd_eq kvs]
end

theorem advanceCursor_seekable (f : FileObj) (h : (f.hasTell && f.hasSeek) = true) :
    advanceCursor f = f := by
  simp [advanceCursor, h]

mutual
theorem mapFiles_seekable_id : ∀ v : PyVal, allSeekable v = true → mapFiles advanceCursor v = v
  | .null, _ => rfl
  | .bool _, _ => rfl
  | .num _, _ => rfl
  | .str _, _ => rfl
  | .list xs, h => by
    simp [allSeekable] at h
    simp [mapFiles, mapFilesList_seekable_id xs h]
  | .dict kvs, h => by
    simp [allSeekable] at h
    simp [mapFiles, mapFilesDict_seekable_id kvs h]
  | .file f, h => by
    simp [allSeekable] at h
    simp [mapFiles, advanceCursor, h]
theorem mapFilesList_seekable_id : ∀ xs : List PyVal,
    allSeekableList xs = true → mapFilesList advanceCursor xs = xs
  | [], _ => rfl
  | x :: xs, h => by
    simp [allSeekableList] at h
    simp [mapFilesList, mapFiles_seekable_id x h.1, mapFilesList_seekable_id xs h.2]
theorem mapFilesDict_seekable_id : ∀ kvs : List (String × PyVal),
    allSeekableDict kvs = true → mapFilesDict advanceCursor kvs = kvs
  | [], _ => rfl
  | (k, v) :: kvs, h => by
    simp [allSeekableDict] at h
    simp [mapFilesDict, mapFiles_seekable_id v h.1, mapFilesDict_seekable_id kvs h.2]
end

theorem eraseCursor_advanceCursor (f : FileObj) :
    eraseCursor (advanceCursor f) = eraseCursor f := by
  by_cases h : (f.hasTell && f.hasSeek) = true
  · simp [advanceCursor, h]
  · simp [advanceCursor, h, eraseCursor]

mutual
theorem mapFiles_erase_advance : ∀ v : PyVal,
    mapFiles eraseCursor (mapFiles advanceCursor v) = mapFiles eraseCursor v
  | .null => rfl
  | .bool _ => rfl
  | .num _ => rfl
  | .str _ => rfl
  | .list xs => by simp [mapFiles, mapFilesList_erase_advance xs]
  | .dict kvs => by simp [mapFiles, mapFilesDict_erase_advance kvs]
  | .file f => by simp [mapFiles, eraseCursor_advanceCursor f]
theorem mapFilesList_erase_advance : ∀ xs : List PyVal,
    mapFilesList eraseCursor (mapFilesList advanceCursor xs) = mapFilesList eraseCursor xs
  | [] => rfl
  | x :: xs => by
    simp [mapFilesList, mapFiles_erase_advance x, mapFilesList_erase_advance xs]
theorem mapFilesDict_erase_advance : ∀ kvs : List (String × PyVal),
    mapFilesDict eraseCursor (mapFilesDict advanceCursor kvs) = mapFilesDict eraseCursor kvs
  | [] => rfl
  | (k, v) :: kvs => by
    simp [mapFilesDict, mapFiles_erase_advance v, mapFilesDict_erase_advance kvs]
end

/-! Claim theorems for the payload encoder. -/

/-- C8: the encoder preserves the length and element order of lists, the
key sequence of dicts, leaves non-file scalars unchanged, and replaces
every file-like leaf by the file-reference dict (base64 data URI,
basename display name defaulting to `file`, media type defaulting to
`application/octet-stream`). -/
theorem claim8_encoder_structure :
    (∀ xs : List PyVal, (convertFilesList xs).1 = xs.map (fun x => (convertFiles x).1)) ∧
    (∀ xs : List PyVal, ((convertFilesList xs).1).length = xs.length) ∧
    (∀ kvs : List (String × PyVal),
      (convertFilesDict kvs).1 = kvs.map (fun e => (e.1, (convertFiles e.2).1))) ∧
    (∀ kvs : List (String × PyVal),
      ((convertFilesDict kvs).1).map Prod.fst = kvs.map Prod.fst) ∧
    (convertFiles .null).1 = .null ∧
    (∀ b, (convertFiles (.bool b)).1 = .bool b) ∧
    (∀ n, (convertFiles (.num n)).1 = .num n) ∧
    (∀ s, (convertFiles (.str s)).1 = .str s) ∧
    (∀ f : FileObj, (convertFiles (.file f)).1 =
      .dict [("type", .str "file"),
             ("data", .str ("data:" ++ (f.contentType.getD "application/octet-stream") ++
                            ";base64," ++ b64encode (f.data.drop f.pos))),
             ("name", .str (basename (f.name.getD "file"))),
             ("mime", .str (f.contentType.getD "application/octet-stream"))]) := by
  refine ⟨convertFilesList_fst, ?_, convertFilesDict_fst, ?_, rfl, fun _ => rfl, fun _ => rfl,
          fun _ => rfl, fun f => rfl⟩
  · intro xs; rw [convertFilesList_fst]; simp
  · intro kvs; rw [convertFilesDict_fst]; simp

/-- C9: when every file-like leaf supports `tell` and `seek`, the encoder
leaves the original tree exactly as it was (cursors restored), so a
second encode of the same original tree produces an identical encoded
value, byte-identical base64 payloads included. -/
theorem claim9_seekable_idempotent (v : PyVal) (h : allSeekable v = true) :
    (convertFiles v).2 = v ∧
    (convertFiles ((convertFiles v).2)).1 = (convertFiles v).1 := by
  have h2 : (convertFiles v).2 = v := by
    rw [convertFiles_snd_eq]; exact mapFiles_seekable_id v h
  exact ⟨h2, by rw [h2]⟩

/-- Witness for C9 on a concrete seekable file tree. -/
theorem claim9_witness :
    allSeekable wTree = true ∧
    ((convertFiles wTree).2 = wTree ∧
      (convertFiles ((convertFiles wTree).2)).1 = (convertFiles wTree).1) :=
  ⟨rfl, claim9_seekable_idempotent wTree rfl⟩

/-- C10: `execute_workflow` never mutates the caller's `input_data`
beyond file cursors — whatever the HTTP outcome, the mapping afterwards
is the original with each file cursor advanced (restored when the file
supports both `tell` and `seek`); erasing cursors recovers the original
tree exactly, and when every file is seekable the mapping is completely
untouched. -/
theorem claim10_input_frame (kvs : List (String × PyVal)) (stream : Option Bool)
    (so : Option (List PyVal)) (rli0 : Option RateLimitInfo) (ts : String) :
    (∀ outcome, (executeWorkflow rli0 (some kvs) stream so ts outcome).inputAfter =
      some (mapFilesDict advanceCursor kvs)) ∧
    mapFilesDict eraseCursor (mapFilesDict advanceCursor kvs) = mapFilesDict eraseCursor kvs ∧
    (∀ f : FileObj, (f.hasTell && f.hasSeek) = true → advanceCursor f = f) ∧
    (allSeekableDict kvs = true → mapFilesDict advanceCursor kvs = kvs) := by
  refine ⟨?_, mapFilesDict_erase_advance kvs, advanceCursor_seekable,
          mapFilesDict_seekable_id kvs⟩
  intro outcome
  have hsnd : (convertFilesDict kvs).2 = mapFilesDict advanceCursor kvs :=
    convertFilesDict_snd_eq kvs
  cases outcome with
  | response r =>
    cases hupd : updateRateLimitInfo rli0 r.headers with
    | error e => simp [executeWorkflow, buildBody, hupd, hsnd]
    | ok rli1 => simp [executeWorkflow, buildBody, hupd, hsnd]
  | timeout => simp [executeWorkflow, buildBody, hsnd]
  | reqError m => simp [executeWorkflow, buildBody, hsnd]

/-- Witness for C10 on a concrete input holding a seekable file. -/
theorem claim10_witness :
    (executeWorkflow none (some wInput) none none "30.0" .timeout).inputAfter =
      some (mapFilesDict advanceCursor wInput) ∧
    mapFilesDict advanceCursor wInput = wInput :=
  ⟨(claim10_input_frame wInput none none none "30.0").1 .timeout,
   (claim10_input_frame wInput none none none "30.0").2.2.2 rfl⟩

/-! Helper lemmas about the retry controller. -/

theorem isRLECode_of_eq (c : Option PyVal)
    (h : c = some (.str "RATE_LIMIT_EXCEEDED")) : isRLECode c = true := by
  subst h; rfl

theorem isRLECode_eq_some (c : Option PyVal) (h : isRLECode c = true) :
    c = some (.str "RATE_LIMIT_EXCEEDED") := by
  match c with
  | none => simp [isRLECode] at h
  | some .null => simp [isRLECode] at h
  | some (.bool _) => simp [isRLECode] at h
  | some (.num _) => simp [isRLECode] at h
  | some (.list _) => simp [isRLECode] at h
  | some (.dict _) => simp [isRLECode] at h
  | some (.file _) => simp [isRLECode] at h
  | some (.str s) =>
    have hs : s = "RATE_LIMIT_EXCEEDED" := by
      have := h
      simpa [isRLECode] using this
    rw [hs]

theorem retryGo_attempts_le (att : Nat → AttemptOutcome) (rand : Nat → ℚ) (mD b : ℚ) :
    ∀ fuel attempt delay, (retryGo att rand mD b fuel attempt delay).attempts ≤ fuel
  | 0, _, _ => Nat.le_refl 0
  | fuel + 1, attempt, delay => by
    cases hr : (att attempt).result with
    | ok r => simp [retryGo, hr]
    | error pe =>
      cases pe with
      | simError e =>
        cases hc : isRLECode e.code with
        | false => simp [retryGo, hr, hc]
        | true =>
          cases hf : fuel == 0 with
          | true => simp [retryGo, hr, hc, hf]
          | false =>
            have ih := retryGo_attempts_le att rand mD b fuel (attempt + 1) (delay * b)
            simp [retryGo, hr, hc, hf]
            omega
      | valueError => simp [retryGo, hr]
      | keyError k => simp [retryGo, hr]
      | attributeError => simp [retryGo, hr]
      | typeError => simp [retryGo, hr]

theorem retryGo_allRLE (att : Nat → AttemptOutcome) (rand : Nat → ℚ) (mD b : ℚ)
    (e : Nat → SimStudioError) :
    ∀ fuel attempt delay,
      (∀ i, attempt ≤ i → i < attempt + fuel →
        (att i).result = .error (.simError (e i)) ∧ isRLECode (e i).code = true) →
      0 < fuel →
      (retryGo att rand mD b fuel attempt delay).attempts = fuel ∧
      (retryGo att rand mD b fuel attempt delay).result =
        .error (.simError (e (attempt + fuel - 1))) ∧
      ((retryGo att rand mD b fuel attempt delay).sleeps).length = fuel - 1 ∧
      (∀ j, j < fuel - 1 →
        ((retryGo att rand mD b fuel attempt delay).sleeps)[j]? =
          some (retryBase (att (attempt + j)).rli (delay * b ^ j) mD *
                (3/4 + rand (attempt + j) * (1/2))))
  | 0, _, _, _, hpos => absurd hpos (by omega)
  | 1, attempt, delay, h, _ => by
    obtain ⟨hr, hc⟩ := h attempt (Nat.le_refl _) (by omega)
    refine ⟨?_, ?_, ?_, ?_⟩
    · simp [retryGo, hr, hc]
    · simp [retryGo, hr, hc]
    · simp [retryGo, hr, hc]
    · intro j hj; omega
  | fuel + 2, attempt, delay, h, _ => by
    obtain ⟨hr, hc⟩ := h attempt (Nat.le_refl _) (by omega)
    have ih := retryGo_allRLE att rand mD b e (fuel + 1) (attempt + 1) (delay * b)
      (fun i hi1 hi2 => h i (by omega) (by omega)) (by omega)
    obtain ⟨iha, ihr, ihl, ihs⟩ := ih
    have hstep : retryGo att rand mD b (fuel + 2) attempt delay =
        ⟨(retryGo att rand mD b (fuel + 1) (attempt + 1) (delay * b)).attempts + 1,
         retryBase (att attempt).rli delay mD * (3/4 + rand attempt * (1/2)) ::
           (retryGo att rand mD b (fuel + 1) (attempt + 1) (delay * b)).sleeps,
         (retryGo att rand mD b (fuel + 1) (attempt + 1) (delay * b)).result⟩ := by
      conv_lhs => rw [retryGo]
      rw [hr]
      simp [hc]
    rw [hstep]
    refine ⟨?_, ?_, ?_, ?_⟩
    · simp [iha]
    · have hidx : attempt + 1 + (fuel + 1) - 1 = attempt + (fuel + 2) - 1 := by omega
      rw [hidx] at ihr
      simpa using ihr
    · simp [ihl]
    · intro j hj
      cases j with
      | zero =>
        simp [pow_zero, mul_one]
      | succ jj =>
        have hjj : jj < fuel + 1 - 1 := by omega
        have hs := ihs jj hjj
        have hidx : attempt + 1 + jj = attempt + (jj + 1) := by omega
        rw [hidx] at hs
        have hpow : delay * b * b ^ jj = delay * b ^ (jj + 1) := by ring
        rw [hpow] at hs
        simpa using hs

theorem retryGo_prefix_stop (att : Nat → AttemptOutcome) (rand : Nat → ℚ) (mD b : ℚ)
    (e : Nat → SimStudioError) (f : SimStudioError) :
    ∀ k fuel attempt delay, k < fuel →
      (∀ i, i < k → (att (attempt + i)).result = .error (.simError (e (attempt + i))) ∧
        isRLECode (e (attempt + i)).code = true) →
      (att (attempt + k)).result = .error (.simError f) →
      isRLECode f.code = false →
      (retryGo att rand mD b fuel attempt delay).attempts = k + 1 ∧
      (retryGo att rand mD b fuel attempt delay).result = .error (.simError f) ∧
      ((retryGo att rand mD b fuel attempt delay).sleeps).length = k := by
  intro k
  induction k with
  | zero =>
    intro fuel attempt delay hkf hpre hk hcode
    obtain ⟨fl, rfl⟩ : ∃ fl, fuel = fl + 1 := ⟨fuel - 1, by omega⟩
    rw [Nat.add_zero] at hk
    refine ⟨?_, ?_, ?_⟩ <;> simp [retryGo, hk, hcode]
  | succ k ihk =>
    intro fuel attempt delay hkf hpre hk hcode
    obtain ⟨fl, rfl⟩ : ∃ fl, fuel = fl + 1 := ⟨fuel - 1, by omega⟩
    obtain ⟨hr0, hc0⟩ := hpre 0 (by omega)
    rw [Nat.add_zero] at hr0 hc0
    have hfl : (fl == 0) = false := by
      have : fl ≠ 0 := by omega
      exact beq_eq_false_iff_ne.mpr this
    have ih := ihk fl (attempt + 1) (delay * b) (by omega)
      (fun i hi => by
        have h1 := hpre (i + 1) (by omega)
        have hidx : attempt + (i + 1) = attempt + 1 + i := by omega
        rw [hidx] at h1
        exact h1)
      (by
        have hidx : attempt + (k + 1) = attempt + 1 + k := by omega
        rw [hidx] at hk
        exact hk)
      hcode
    obtain ⟨iha, ihr, ihl⟩ := ih
    refine ⟨?_, ?_, ?_⟩
    · simp [retryGo, hr0, hc0, hfl, iha]
    · simp [retryGo, hr0, hc0, hfl, ihr]
    · simp [retryGo, hr0, hc0, hfl, ihl]

/-! Claim theorems for the retry controller. -/

/-- C1: with `max_retries = N` the dispatcher is invoked at most `N + 1`
times, and when every one of those attempts fails with a
`RATE_LIMIT_EXCEEDED` error, the call makes exactly `N + 1` attempts and
re-raises the rate-limit error of the last attempt — no successful
result. -/
theorem claim1_retry_bound (att : Nat → AttemptOutcome) (rand : Nat → ℚ) (N : Nat)
    (d0 dM b : ℚ) :
    (executeWithRetry att rand N d0 dM b).attempts ≤ N + 1 ∧
    (∀ e : Nat → SimStudioError,
      (∀ i, i ≤ N → (att i).result = .error (.simError (e i)) ∧
        (e i).code = some (.str "RATE_LIMIT_EXCEEDED")) →
      (executeWithRetry att rand N d0 dM b).attempts = N + 1 ∧
      (executeWithRetry att rand N d0 dM b).result = .error (.simError (e N))) := by
  constructor
  · exact retryGo_attempts_le att rand dM b (N + 1) 0 d0
  · intro e he
    have h := retryGo_allRLE att rand dM b e (N + 1) 0 d0
      (fun i hi1 hi2 => ⟨(he i (by omega)).1, isRLECode_of_eq _ (he i (by omega)).2⟩)
      (by omega)
    have hidx : 0 + (N + 1) - 1 = N := by omega
    rw [hidx] at h
    exact ⟨h.1, h.2.1⟩

/-- Witness for C1: three consecutive rate-limited attempts with
`max_retries = 2`. -/
theorem claim1_witness :
    (executeWithRetry wAttRLE wRand0 2 1 30 2).attempts = 2 + 1 ∧
    (executeWithRetry wAttRLE wRand0 2 1 30 2).result = .error (.simError wErrRLE) :=
  (claim1_retry_bound wAttRLE wRand0 2 1 30 2).2 (fun _ => wErrRLE)
    (fun _ _ => ⟨rfl, rfl⟩)

/-- C2: an attempt failing with a non-rate-limit `SimStudioError` is
re-raised verbatim at once — no further dispatch and no extra sleep — and
when all `N + 1` attempts are rate-limited the last rate-limit error is
re-raised verbatim. -/
theorem claim2_error_passthrough (att : Nat → AttemptOutcome) (rand : Nat → ℚ) (N : Nat)
    (d0 dM b : ℚ) :
    (∀ k, k ≤ N → ∀ e : Nat → SimStudioError, ∀ f : SimStudioError,
      (∀ i, i < k → (att i).result = .error (.simError (e i)) ∧
        (e i).code = some (.str "RATE_LIMIT_EXCEEDED")) →
      (att k).result = .error (.simError f) →
      f.code ≠ some (.str "RATE_LIMIT_EXCEEDED") →
      (executeWithRetry att rand N d0 dM b).attempts = k + 1 ∧
      (executeWithRetry att rand N d0 dM b).result = .error (.simError f) ∧
      ((executeWithRetry att rand N d0 dM b).sleeps).length = k) ∧
    (∀ e : Nat → SimStudioError,
      (∀ i, i ≤ N → (att i).result = .error (.simError (e i)) ∧
        (e i).code = some (.str "RATE_LIMIT_EXCEEDED")) →
      (executeWithRetry att rand N d0 dM b).result = .error (.simError (e N))) := by
  constructor
  · intro k hk e f hpre hatt hcode
    have hc : isRLECode f.code = false := by
      cases hcf : isRLECode f.code with
      | true => exact absurd (isRLECode_eq_some _ hcf) hcode
      | false => rfl
    exact retryGo_prefix_stop att rand dM b e f k (N + 1) 0 d0 (by omega)
      (fun i hi => by
        have h1 := hpre i hi
        have hz : (0 : Nat) + i = i := Nat.zero_add i
        rw [hz]
        exact ⟨h1.1, isRLECode_of_eq _ h1.2⟩)
      (by rw [Nat.zero_add]; exact hatt) hc
  · intro e he
    have h := retryGo_allRLE att rand dM b e (N + 1) 0 d0
      (fun i hi1 hi2 => ⟨(he i (by omega)).1, isRLECode_of_eq _ (he i (by omega)).2⟩)
      (by omega)
    have hidx : 0 + (N + 1) - 1 = N := by omega
    rw [hidx] at h
    exact h.2.1

/-- Witness for C2: a rate-limited first attempt followed by a
`NOT_FOUND` error stops after two attempts with one sleep. -/
theorem claim2_witness :
    (executeWithRetry wAttMixed wRand0 3 1 30 2).attempts = 1 + 1 ∧
    (executeWithRetry wAttMixed wRand0 3 1 30 2).result = .error (.simError wErrOther) ∧
    ((executeWithRetry wAttMixed wRand0 3 1 30 2).sleeps).length = 1 :=
  (claim2_error_passthrough wAttMixed wRand0 3 1 30 2).1 1 (by omega)
    (fun _ => wErrRLE) wErrOther
    (fun i hi => by
      have h0 : i = 0 := by omega
      subst h0
      exact ⟨rfl, rfl⟩)
    rfl
    (by
      intro hq
      have hq2 : some (PyVal.str "NOT_FOUND") = some (PyVal.str "RATE_LIMIT_EXCEEDED") := hq
      have hq3 : PyVal.str "NOT_FOUND" = PyVal.str "RATE_LIMIT_EXCEEDED" :=
        Option.some.inj hq2
      have hq4 : "NOT_FOUND" = "RATE_LIMIT_EXCEEDED" := by
        injection hq3
      exact absurd hq4 (by decide))

/-- C3 (amended): between consecutive rate-limited attempts exactly one
sleep occurs; its duration is `(0.75 + r/2) * base` with `r ∈ [0, 1)` the
random draw (so the jitter factor lies in `[0.75, 1.25)`); `base` is the
tracker's retry-after hint divided by 1000 when the snapshot holds a
*non-zero* hint, else `min(current delay, max_delay)`; and the running
delay is `initial_delay * backoff_multiplier ^ i` on attempt `i`
regardless of whether the hint was used. -/
theorem claim3_backoff_sleeps (att : Nat → AttemptOutcome) (rand : Nat → ℚ) (N : Nat)
    (d0 dM b : ℚ) (e : Nat → SimStudioError)
    (hall : ∀ i, i ≤ N → (att i).result = .error (.simError (e i)) ∧
      (e i).code = some (.str "RATE_LIMIT_EXCEEDED"))
    (hrand : ∀ i, 0 ≤ rand i ∧ rand i < 1) :
    (executeWithRetry att rand N d0 dM b).attempts = N + 1 ∧
    ((executeWithRetry att rand N d0 dM b).sleeps).length = N ∧
    (∀ i, i < N →
      ((executeWithRetry att rand N d0 dM b).sleeps)[i]? =
        some (retryBase (att i).rli (d0 * b ^ i) dM * (3/4 + rand i * (1/2))) ∧
      3/4 ≤ 3/4 + rand i * (1/2) ∧ 3/4 + rand i * (1/2) < 5/4) ∧
    (∀ delay : ℚ, retryBase none delay dM = min delay dM) ∧
    (∀ (delay : ℚ) (info : RateLimitInfo), info.retryAfter = none →
      retryBase (some info) delay dM = min delay dM) ∧
    (∀ (delay : ℚ) (info : RateLimitInfo), info.retryAfter = some 0 →
      retryBase (some info) delay dM = min delay dM) ∧
    (∀ (delay : ℚ) (info : RateLimitInfo) (ra : Int), info.retryAfter = some ra → ra ≠ 0 →
      retryBase (some info) delay dM = (ra : ℚ) / 1000) := by
  have h := retryGo_allRLE att rand dM b e (N + 1) 0 d0
    (fun i hi1 hi2 => ⟨(hall i (by omega)).1, isRLECode_of_eq _ (hall i (by omega)).2⟩)
    (by omega)
  obtain ⟨ha, hr, hl, hs⟩ := h
  refine ⟨ha, by simpa using hl, ?_, ?_, ?_, ?_, ?_⟩
  · intro i hi
    have h1 := hs i (by omega)
    rw [Nat.zero_add] at h1
    refine ⟨h1, ?_, ?_⟩
    · have h2 := (hrand i).1
      linarith
    · have h2 := (hrand i).2
      linarith
  · intro delay; rfl
  · intro delay info hra; simp [retryBase, hra]
  · intro delay info hra; simp [retryBase, hra]
  · intro delay info ra hra hne
    have hb : (ra == 0) = false := beq_eq_false_iff_ne.mpr hne
    simp [retryBase, hra, hb]

/-- Witness for C3 (amended) with three rate-limited attempts and zero
random draws. -/
theorem claim3_witness :
    ((executeWithRetry wAttRLE wRand0 2 1 30 2).sleeps).length = 2 ∧
    ((executeWithRetry wAttRLE wRand0 2 1 30 2).sleeps)[0]? =
      some (retryBase (wAttRLE 0).rli (1 * (2:ℚ) ^ 0) 30 * (3/4 + wRand0 0 * (1/2))) := by
  have h := claim3_backoff_sleeps wAttRLE wRand0 2 1 30 2 (fun _ => wErrRLE)
    (fun i _ => ⟨rfl, rfl⟩) (fun i => ⟨le_refl 0, by norm_num [wRand0]⟩)
  exact ⟨h.2.1, (h.2.2.1 0 (by omega)).1⟩

/-- Counterexample to C3 as stated: when the stored retry-after hint is
0 ms the code ignores it and sleeps the backoff amount, while the claim
says the sleep must be jitter times `hint / 1000 = 0`.  The observed
sleep `min 1 30 * (3/4 + 0 * 1/2) = 3/4` is outside the claimed range
`[0.75 * 0, 1.25 * 0]`. -/
theorem claim3_counterexample :
    (executeWithRetry wAttHintZero wRand0 3 1 30 2).sleeps =
      [min (1:ℚ) 30 * (3/4 + 0 * (1/2))] ∧
    min (1:ℚ) 30 * (3/4 + 0 * (1/2)) ∉
      Set.Icc ((3/4 : ℚ) * ((0 : ℚ) / 1000)) ((5/4 : ℚ) * ((0 : ℚ) / 1000)) := by
  constructor
  · rfl
  · intro hmem
    rw [Set.mem_Icc] at hmem
    have h2 := hmem.2
    rw [min_def] at h2
    norm_num at h2

/-! Claim theorems for the execution dispatcher and the rate-limit
tracker. -/

/-- C4 (amended): a 429 exchange always fails with a `SimStudioError`
whose code is `RATE_LIMIT_EXCEEDED` and status 429, and whose message
interpolates `showRetryAfter` of the snapshot as updated by this very
response: the stored hint in milliseconds when the snapshot holds one,
the fixed fallback `1000` when no snapshot exists at all, and the text
`None` when a snapshot exists but holds no hint. -/
theorem claim4_rate_limit_message (rli0 rli1 : Option RateLimitInfo)
    (input : Option (List (String × PyVal))) (stream : Option Bool)
    (so : Option (List PyVal)) (ts reason : String) (hd : Headers) (body : Option PyVal)
    (hupd : updateRateLimitInfo rli0 hd = .ok rli1) :
    (executeWorkflow rli0 input stream so ts (.response ⟨429, reason, hd, body⟩)).result =
      .error (.simError ⟨.str ("Rate limit exceeded. Retry after " ++ showRetryAfter rli1 ++ "ms"),
                         some (.str "RATE_LIMIT_EXCEEDED"), some 429⟩) ∧
    (∀ info n, rli1 = some info → info.retryAfter = some n →
      showRetryAfter rli1 = toString n) ∧
    (rli1 = none → showRetryAfter rli1 = "1000") ∧
    (∀ info, rli1 = some info → info.retryAfter = none → showRetryAfter rli1 = "None") := by
  refine ⟨?_, ?_, ?_, ?_⟩
  · simp [executeWorkflow, hupd, classifyResponse]
  · intro info n h1 h2
    subst h1
    simp [showRetryAfter, h2]
  · intro h1
    subst h1
    rfl
  · intro info h1 h2
    subst h1
    simp [showRetryAfter, h2]

/-- Witness for C4 (amended): a 429 response carrying only
`retry-after: 2` never updates the snapshot (none of the three
rate-limit headers is present), so from a fresh client the message uses
the fixed fallback. -/
theorem claim4_witness :
    (executeWorkflow none none none none "30.0"
        (.response ⟨429, "Too Many Requests", wHdrsHint, none⟩)).result =
      .error (.simError ⟨.str ("Rate limit exceeded. Retry after " ++ showRetryAfter none ++ "ms"),
                         some (.str "RATE_LIMIT_EXCEEDED"), some 429⟩) ∧
    showRetryAfter none = "1000" :=
  ⟨(claim4_rate_limit_message none none none none none "30.0" "Too Many Requests"
      wHdrsHint none rfl).1,
   (claim4_rate_limit_message none none none none none "30.0" "Too Many Requests"
      wHdrsHint none rfl).2.2.1 rfl⟩

/-- Counterexample to C4 as stated: a 429 response carrying
`x-ratelimit-limit: 10` but no retry-after header, hitting a fresh
client.  No retry-after hint was ever observed, yet the message is
`Rate limit exceeded. Retry after Nonems` — it contains neither a hint
nor the fixed fallback `1000`. -/
theorem claim4_counterexample :
    (executeWorkflow none none none none "30.0" (.response wResp429)).result =
      .error (.simError ⟨.str "Rate limit exceeded. Retry after Nonems",
                         some (.str "RATE_LIMIT_EXCEEDED"), some 429⟩) ∧
    strContains "Rate limit exceeded. Retry after Nonems" "1000" = false ∧
    (executeWorkflow none none none none "30.0" (.response wResp429)).rli =
      some ⟨10, 0, 0, none⟩ :=
  ⟨rfl, rfl, rfl⟩

/-- C5: demonstration that the dispatcher can raise bare interpreter
errors.  A 200 response whose valid JSON body lacks the `success` field
raises an uncaught `KeyError`, and a 200 response whose body is not
valid JSON raises an uncaught `ValueError` — neither is a
`SimStudioError`. -/
theorem claim5_bare_errors :
    (executeWorkflow none (some []) none none "30.0" (.response wResp200Empty)).result =
      .error (.keyError "success") ∧
    (executeWorkflow none (some []) none none "30.0"
        (.response ⟨200, "OK", wHdrsNone, none⟩)).result = .error .valueError :=
  ⟨rfl, rfl⟩

/-- C6: a 202 exchange whose JSON body is a dict containing `taskId`
always yields an `AsyncExecutionResult` (never a sync result), with
`success` defaulting to `True`, `status` to `queued`, `created_at` to
the empty string and `links` to the empty dict when absent. -/
theorem claim6_async_result (rli0 rli1 : Option RateLimitInfo)
    (input : Option (List (String × PyVal))) (stream : Option Bool)
    (so : Option (List PyVal)) (ts reason : String) (hd : Headers)
    (d : List (String × PyVal)) (tv : PyVal)
    (hupd : updateRateLimitInfo rli0 hd = .ok rli1)
    (htask : pyLookup d "taskId" = some tv) :
    (executeWorkflow rli0 input stream so ts (.response ⟨202, reason, hd, some (.dict d)⟩)).result =
      .ok (.async ⟨pyGetD d "success" (.bool true), tv,
                   pyGetD d "status" (.str "queued"),
                   pyGetD d "createdAt" (.str ""),
                   pyGetD d "links" (.dict [])⟩) ∧
    (pyLookup d "success" = none → pyGetD d "success" (.bool true) = .bool true) ∧
    (pyLookup d "status" = none → pyGetD d "status" (.str "queued") = .str "queued") ∧
    (pyLookup d "createdAt" = none → pyGetD d "createdAt" (.str "") = .str "") ∧
    (pyLookup d "links" = none → pyGetD d "links" (.dict []) = .dict []) := by
  refine ⟨?_, ?_, ?_, ?_, ?_⟩
  · simp [executeWorkflow, hupd, classifyResponse, pyIn, pyHasKey, htask, pyGetD]
  · intro h1; simp [pyGetD, h1]
  · intro h1; simp [pyGetD, h1]
  · intro h1; simp [pyGetD, h1]
  · intro h1; simp [pyGetD, h1]

/-- Witness for C6: body `{"taskId": "t1"}` with status 202 yields the
fully defaulted async handle. -/
theorem claim6_witness :
    (executeWorkflow none none none none "30.0"
        (.response ⟨202, "Accepted", wHdrsNone, some (.dict wTaskDict)⟩)).result =
      .ok (.async ⟨.bool true, .str "t1", .str "queued", .str "", .dict []⟩) :=
  (claim6_async_result none none none none none "30.0" "Accepted" wHdrsNone
    wTaskDict (.str "t1") rfl rfl).1

/-- C7 (amended): the tracker replaces the snapshot wholesale when at
least one of the limit/remaining/reset headers is present *with a
non-empty value* (missing or empty slots fill with zero, retry-after is
converted from seconds to milliseconds when present and non-empty, else
`None`), and leaves the snapshot completely untouched when none of the
three is present with a non-empty value. -/
theorem claim7_tracker (prev : Option RateLimitInfo) (hd : Headers) :
    ((truthyStr hd.limit || truthyStr hd.remaining || truthyStr hd.reset) = false →
      updateRateLimitInfo prev hd = .ok prev) ∧
    (∀ (l r rs : Int) (ra : Option Int),
      (truthyStr hd.limit || truthyStr hd.remaining || truthyStr hd.reset) = true →
      convSlot hd.limit = .ok l → convSlot hd.remaining = .ok r →
      convSlot hd.reset = .ok rs → convRetryAfter hd.retryAfter = .ok ra →
      updateRateLimitInfo prev hd = .ok (some ⟨l, r, rs, ra⟩)) ∧
    (hd.limit = none → convSlot hd.limit = .ok 0) ∧
    (hd.limit = some "" → convSlot hd.limit = .ok 0) ∧
    (∀ s n, hd.retryAfter = some s → (s == "") = false → pyInt s = .ok n →
      convRetryAfter hd.retryAfter = .ok (some (n * 1000))) ∧
    (hd.retryAfter = none → convRetryAfter hd.retryAfter = .ok none) := by
  refine ⟨?_, ?_, ?_, ?_, ?_, ?_⟩
  · intro htr; simp [updateRateLimitInfo, htr]
  · intro l r rs ra htr hl hr2 hrs hra
    simp [updateRateLimitInfo, htr, hl, hr2, hrs, hra]
  · intro h1; rw [h1]; rfl
  · intro h1; rw [h1]; simp [convSlot]
  · intro s n h1 h2 h3; rw [h1]; simp [convRetryAfter, h2, h3]
  · intro h1; rw [h1]; rfl

/-- Witness for C7 (amended): headers `limit 10, reset 7, retry-after 2`
replace the stale snapshot wholesale with `⟨10, 0, 7, 2000 ms⟩`, while a
response with no rate-limit headers leaves the snapshot untouched. -/
theorem claim7_witness :
    updateRateLimitInfo wPrev wHdrsMix = .ok (some ⟨10, 0, 7, some 2000⟩) ∧
    updateRateLimitInfo wPrev wHdrsNone = .ok wPrev :=
  ⟨(claim7_tracker wPrev wHdrsMix).2.1 10 0 7 (some 2000) rfl rfl rfl rfl rfl,
   (claim7_tracker wPrev wHdrsNone).1 rfl⟩

/-- Counterexample to C7 as stated: the limit header is *present* with
an empty value, yet the stale snapshot is left untouched instead of
being replaced wholesale (Python truthiness treats the empty string like
an absent header). -/
theorem claim7_counterexample :
    updateRateLimitInfo wPrev wHdrsEmptyLimit = .ok wPrev ∧
    wHdrsEmptyLimit.limit = some "" ∧
    wPrev ≠ some ⟨0, 0, 0, none⟩ :=
  ⟨rfl, rfl, by decide⟩

end SimSDK
